import Mathlib

/-
  Verification of the tun-manager device plugin against its specification.

  Shallow embedding of:
  - the device-plugin server (package tundeviceplugin): discovery,
    Allocate, ListAndWatch;
  - the registration client (package plugin): retry/backoff policy,
    waitForPluginReady, registerWithKubelet, RegisterDevicePlugin,
    the gRPC panic-recovery handler;
  - the process shutdown coordinator (cmd main): graceful/forced stop of
    the two servers and the exit-code policy.

  Go error values are modelled as `Option String` (`none` = nil error),
  channel-driven control flow as explicit event counts, and the
  `time.Duration` arithmetic of the backoff as 64-bit wrapping integers.
-/

namespace TunManager

/-! ## Device plugin server (package tundeviceplugin) -/

def tunPath : String := "/dev/net/tun"

def tunName : String := "tun"

def rwPerm : String := "rw"

inductive Health where
  | Healthy
  | Unhealthy
deriving DecidableEq, Repr

structure Device where
  id : String
  health : Health
deriving DecidableEq, Repr

/-- Embeds the server struct: namespace, configured device count, and the
roster built once by `discover` at construction. The `update` channel is
modelled separately as explicit signal counts. -/
structure Server where
  nspace : String
  devices : Nat
  devs : List Device
deriving DecidableEq, Repr

/-- Embeds the loop body of `discover`: starting from the empty roster,
append one device per index `i` in `[0, devices)`, with ID
`fmt.Sprintf("%s%d", tunName, i)` and health `Healthy`. -/
def discoverLoop (devices : Nat) : List Device :=
  (List.range devices).foldl
    (fun acc i => acc ++ [{ id := tunName ++ toString i, health := Health.Healthy }]) []

/-- Embeds `discover`: if `os.Stat(tunPath)` succeeds (`tunExists`), run the
append loop; otherwise only log an error and leave the roster empty. -/
def discover (tunExists : Bool) (devices : Nat) : List Device :=
  if tunExists then discoverLoop devices else []

/-- Embeds `New`: always constructs and returns a server (no error path);
the roster is whatever `discover` produced. -/
def Server.new (nspace : String) (devices : Nat) (tunExists : Bool) : Server :=
  { nspace := nspace, devices := devices, devs := discover tunExists devices }

structure DeviceSpec where
  containerPath : String
  hostPath : String
  permissions : String
deriving DecidableEq, Repr

structure ContainerAllocateRequest where
  devicesIDs : List String
deriving DecidableEq, Repr

structure AllocateRequest where
  containerRequests : List ContainerAllocateRequest
deriving DecidableEq, Repr

structure ContainerAllocateResponse where
  devices : List DeviceSpec
deriving DecidableEq, Repr

structure AllocateResponse where
  containerResponses : List ContainerAllocateResponse
deriving DecidableEq, Repr

/-- Result of one `Allocate` call: how many roster-changed signals were
emitted on `s.update`, the response value, and the returned error. -/
structure AllocateResult where
  signalsEmitted : Nat
  response : AllocateResponse
  err : Option String
deriving DecidableEq, Repr

/-- Embeds `Allocate`: sends exactly one signal on `s.update`, then returns
a response holding a single container response with the fixed device spec
(tunPath, tunPath, rwPerm), and a nil error. The request is not inspected. -/
def Allocate (_req : AllocateRequest) : AllocateResult :=
  { signalsEmitted := 1
    response :=
      { containerResponses :=
          [{ devices := [{ containerPath := tunPath, hostPath := tunPath, permissions := rwPerm }] }] }
    err := none }

structure ListAndWatchResponse where
  devices : List Device
deriving DecidableEq, Repr

/-- How a `ListAndWatch` invocation ends: either the Go `panic` at the end
of the function body, or a normal `return` carrying an error value. -/
inductive LawOutcome where
  | panicked (msg : String)
  | returned (err : Option String)
deriving DecidableEq, Repr

/-- Trace of one `ListAndWatch` invocation: the list of attempted `Send`
calls, each paired with whether that send succeeded, and how the
invocation ended. -/
structure LawRun where
  sent : List (ListAndWatchResponse × Bool)
  outcome : LawOutcome
deriving DecidableEq, Repr

/-- Embeds the `for range s.update` loop of `ListAndWatch`: one `Send` of
the roster per signal received (a failed send is only logged, the loop
continues), and when the channel is exhausted (closed) the loop falls
through to `panic("unexpected error")`. `sendOk k` tells whether the k-th
send (0-indexed over the whole invocation) succeeds. -/
def lawLoop (devs : List Device) (sendOk : Nat → Bool) :
    Nat → Nat → List (ListAndWatchResponse × Bool) → LawRun
  | 0, _, acc => { sent := acc, outcome := LawOutcome.panicked "unexpected error" }
  | n + 1, idx, acc =>
      lawLoop devs sendOk n (idx + 1) (acc ++ [({ devices := devs }, sendOk idx)])

/-- Embeds `ListAndWatch` for a run in which `signals` roster-changed
signals are received before the update channel closes: first an immediate
`Send` of the current roster (failure only logged), then the receive loop. -/
def ListAndWatch (devs : List Device) (sendOk : Nat → Bool) (signals : Nat) : LawRun :=
  lawLoop devs sendOk signals 1 [({ devices := devs }, sendOk 0)]

/-! ## Registration client (package plugin) -/

/-- baseDelay = 100 ms, in nanoseconds (Go `time.Duration` units). -/
def baseDelayNs : Int := 100000000

/-- maxDelay = 5 s, in nanoseconds. -/
def maxDelayNs : Int := 5000000000

/-- maxRetries = 5. -/
def maxRetries : Nat := 5

/-- Wrap an integer into the signed 64-bit range, as Go int64 arithmetic
does on overflow. -/
def wrap64 (n : Int) : Int := ((n + 2 ^ 63) % 2 ^ 64) - 2 ^ 63

/-- Embeds `baseDelay * (1 << attempt)` with Go int64 semantics: the shift
and the product both wrap in the signed 64-bit range. -/
def computedBackoffNs (attempt : Nat) : Int :=
  wrap64 (baseDelayNs * wrap64 (2 ^ attempt))

/-- Embeds the clamp in `retry`: `if backoffDelay > maxDelay { backoffDelay
= maxDelay }`. The result is the duration actually slept after a failed
attempt. -/
def backoffDelayNs (attempt : Nat) : Int :=
  if computedBackoffNs attempt > maxDelayNs then maxDelayNs else computedBackoffNs attempt

/-- The error message `retry` builds once all attempts failed, wrapping the
last attempt error. -/
def exhaustMsg (last : Option String) : String :=
  "failed to create connection to local gRPC server after 5 attempts: " ++ last.getD ""

/-- Embeds the `for attempt := 0; attempt < maxRetries; attempt++` loop of
`retry`. `op k` is the error returned by the k-th call of the operation
(`none` = success). Returns the loop result together with the number of
operation calls made. Arguments: current attempt index, remaining
attempts, last error seen. -/
def retryLoop (op : Nat → Option String) :
    Nat → Nat → Option String → Option String × Nat
  | attempt, 0, last => (some (exhaustMsg last), attempt)
  | attempt, rem + 1, _ =>
      match op attempt with
      | none => (none, attempt + 1)
      | some e => retryLoop op (attempt + 1) rem (some e)

/-- Embeds `retry`: run the loop from attempt 0 with the full budget. -/
def retry (op : Nat → Option String) : Option String × Nat :=
  retryLoop op 0 maxRetries none

/-- Embeds `waitForPluginReady`: retried connection to the local server,
then retried health check, each wrapped with its own message on failure.
`connLocal k` / `healthOp k` are the errors of the k-th connection /
health-check attempt. -/
def waitForPluginReady (connLocal healthOp : Nat → Option String) : Option String :=
  match (retry connLocal).fst with
  | some e => some ("failed to create connection to local gRPC server: " ++ e)
  | none =>
      match (retry healthOp).fst with
      | some e => some ("failed to check health of the service: " ++ e)
      | none => none

/-- Embeds `registerWithKubelet`: retried connection to the kubelet socket,
then a single (unretried) `Register` RPC whose error is `registerCall`. -/
def registerWithKubelet (connKubelet : Nat → Option String)
    (registerCall : Option String) : Option String :=
  match (retry connKubelet).fst with
  | some e => some ("failed to connect to kubelet: " ++ e)
  | none =>
      match registerCall with
      | some e => some ("failed to register plugin with kubelet service: " ++ e)
      | none => none

/-- Result of `RegisterDevicePlugin`, with a flag recording whether control
ever reached the `registerWithKubelet` call. -/
structure RegRun where
  result : Option String
  registrationAttempted : Bool
deriving DecidableEq, Repr

/-- Embeds `RegisterDevicePlugin`: readiness wait first; only if it
succeeds is registration attempted. Each failure is wrapped with the
message the Go code uses. -/
def RegisterDevicePlugin (connLocal healthOp connKubelet : Nat → Option String)
    (registerCall : Option String) : RegRun :=
  match waitForPluginReady connLocal healthOp with
  | some e => { result := some ("plugin not ready: " ++ e), registrationAttempted := false }
  | none =>
      match registerWithKubelet connKubelet registerCall with
      | some e => { result := some ("registration failed: " ++ e), registrationAttempted := true }
      | none => { result := none, registrationAttempted := true }

/-- Embeds `grpcRecovery`: the recovery handler logs the panic value,
increments the panic counter by one, and returns a nil error. State is the
counter value; the second component is the error the handler returns. -/
def grpcRecovery (panicCounter : Nat) (_p : String) : Nat × Option String :=
  (panicCounter + 1, none)

/-- Outcome of the wrapped RPC handler body: a normal response, or a panic
carrying a value. -/
inductive HandlerOutcome where
  | ok (resp : String)
  | panicRaised (p : String)
deriving DecidableEq, Repr

/-- Result of one intercepted RPC: panic-counter state afterwards, the
response delivered (if any), and the error returned to the caller. -/
structure RpcResult where
  panicCounter : Nat
  resp : Option String
  err : Option String
deriving DecidableEq, Repr

/-- Contract of the external go-grpc-middleware recovery interceptor, as
wired in `DevicePluginServer`: a panic in the handler is recovered at the
interceptor boundary and the error returned by the configured recovery
handler (`grpcRecovery`) becomes the error of the RPC; the process
continues either way. -/
def interceptedCall (panicCounter : Nat) : HandlerOutcome → RpcResult
  | HandlerOutcome.ok r => { panicCounter := panicCounter, resp := some r, err := none }
  | HandlerOutcome.panicRaised p =>
      let rec0 := grpcRecovery panicCounter p
      { panicCounter := rec0.fst, resp := none, err := rec0.snd }

/-! ## Shutdown coordinator (cmd main) -/

/-- Embeds the gRPC shutdown task: if `GracefulStop` finishes before the
grace deadline the task returns nil; if the deadline fires first the
server is force-stopped (`Stop()`) and the task still returns nil. The
Bool output records whether the forced path was taken. -/
def grpcShutdownTask (gracefulWithinDeadline : Bool) : Option String × Bool :=
  if gracefulWithinDeadline then (none, false) else (none, true)

/-- Embeds the HTTP shutdown task: if `Shutdown` finishes before the grace
deadline the task returns its result; if the deadline fires first the
server is force-closed and the task returns the result of `Close()`. The
Bool output records whether the forced path was taken. -/
def httpShutdownTask (shutdownWithinDeadline : Bool)
    (shutdownRes closeRes : Option String) : Option String × Bool :=
  if shutdownWithinDeadline then (shutdownRes, false) else (closeRes, true)

/-- Embeds `errgroup.Wait`: nil when every task returned nil, otherwise an
error returned by some task. -/
def firstError : List (Option String) → Option String
  | [] => none
  | none :: rest => firstError rest
  | some e :: _ => some e

/-- Embeds the `shutdown` function result: join of its two parallel stop
tasks. -/
def shutdownResult (grpcWithin httpWithin : Bool)
    (httpShutdownRes httpCloseRes : Option String) : Option String :=
  firstError [(grpcShutdownTask grpcWithin).fst,
              (httpShutdownTask httpWithin httpShutdownRes httpCloseRes).fst]

/-- Embeds `main`: `run` joins all tasks with `errgroup.Wait`; a non-nil
result makes the process exit 1, otherwise it exits 0. -/
def exitCode (taskResults : List (Option String)) : Nat :=
  if firstError taskResults = none then 0 else 1

/-! ## Helper lemmas -/

/-- Folding an append of singletons over a list is a map. -/
lemma foldl_push_eq_append {α β : Type} (f : α → β) :
    ∀ (l : List α) (acc : List β),
      l.foldl (fun a i => a ++ [f i]) acc = acc ++ l.map f := by
  intro l
  induction l with
  | nil => intro acc; simp
  | cons x xs ih => intro acc; simp [ih]

/-- The discovery loop produces the mapped range of synthetic IDs. -/
lemma discoverLoop_eq_map (n : Nat) :
    discoverLoop n =
      (List.range n).map (fun i => { id := tunName ++ toString i, health := Health.Healthy }) := by
  simp [discoverLoop, foldl_push_eq_append]

/-- The messages attempted by the watch loop: whatever was already sent,
followed by one roster snapshot per signal. -/
lemma lawLoop_sent_map (devs : List Device) (sendOk : Nat → Bool) :
    ∀ (n idx : Nat) (acc : List (ListAndWatchResponse × Bool)),
      (lawLoop devs sendOk n idx acc).sent.map Prod.fst =
        acc.map Prod.fst ++ List.replicate n { devices := devs } := by
  intro n
  induction n with
  | zero => intro idx acc; simp [lawLoop]
  | succ m ih =>
      intro idx acc
      rw [lawLoop, ih]
      simp [List.replicate_succ]

/-- The watch loop attempts exactly one send per signal. -/
lemma lawLoop_sent_length (devs : List Device) (sendOk : Nat → Bool) :
    ∀ (n idx : Nat) (acc : List (ListAndWatchResponse × Bool)),
      (lawLoop devs sendOk n idx acc).sent.length = acc.length + n := by
  intro n
  induction n with
  | zero => intro idx acc; simp [lawLoop]
  | succ m ih =>
      intro idx acc
      rw [lawLoop, ih]
      simp
      omega

/-- The watch loop always ends in the panic sentinel once the update
channel is exhausted. -/
lemma lawLoop_outcome (devs : List Device) (sendOk : Nat → Bool) :
    ∀ (n idx : Nat) (acc : List (ListAndWatchResponse × Bool)),
      (lawLoop devs sendOk n idx acc).outcome = LawOutcome.panicked "unexpected error" := by
  intro n
  induction n with
  | zero => intro idx acc; rfl
  | succ m ih => intro idx acc; rw [lawLoop]; exact ih (idx + 1) _

/-- The retry loop surfaces an error exactly when every remaining attempt
fails. -/
lemma retryLoop_fst_ne_none_iff (op : Nat → Option String) :
    ∀ (rem attempt : Nat) (last : Option String),
      (retryLoop op attempt rem last).fst ≠ none ↔
        ∀ k, k < rem → op (attempt + k) ≠ none := by
  intro rem
  induction rem with
  | zero =>
      intro attempt last
      constructor
      · intro _ k hk; exact absurd hk (Nat.not_lt_zero k)
      · intro _; rw [retryLoop]; exact Option.some_ne_none _
  | succ m ih =>
      intro attempt last
      cases hop : op attempt with
      | none =>
          rw [retryLoop, hop]
          constructor
          · intro h; exact absurd rfl h
          · intro hall
            have := hall 0 (Nat.succ_pos m)
            rw [Nat.add_zero, hop] at this
            exact absurd rfl this
      | some e =>
          rw [retryLoop, hop, ih (attempt + 1) (some e)]
          constructor
          · intro h k hk
            cases k with
            | zero =>
                intro hc
                rw [Nat.add_zero, hop] at hc
                exact Option.noConfusion hc
            | succ k2 =>
                have hk2 := h k2 (by omega)
                have harr : attempt + (k2 + 1) = attempt + 1 + k2 := by omega
                rw [harr]
                exact hk2
          · intro h k hk
            have hk1 := h (k + 1) (by omega)
            have harr : attempt + (k + 1) = attempt + 1 + k := by omega
            rw [harr] at hk1
            exact hk1

/-- When the retry loop fails, it has consumed its whole attempt budget. -/
lemma retryLoop_snd_of_fail (op : Nat → Option String) :
    ∀ (rem attempt : Nat) (last : Option String),
      (retryLoop op attempt rem last).fst ≠ none →
      (retryLoop op attempt rem last).snd = attempt + rem := by
  intro rem
  induction rem with
  | zero => intro attempt last _; rfl
  | succ m ih =>
      intro attempt last h
      cases hop : op attempt with
      | none =>
          rw [retryLoop, hop] at h
          exact absurd rfl h
      | some e =>
          rw [retryLoop, hop] at h ⊢
          rw [ih (attempt + 1) (some e) h]
          omega

/-- The retry loop returns success immediately at the first succeeding
attempt, having called the operation exactly that many times. -/
lemma retryLoop_first_success (op : Nat → Option String) :
    ∀ (rem attempt : Nat) (last : Option String) (k : Nat),
      k < rem → op (attempt + k) = none →
      (∀ j, j < k → op (attempt + j) ≠ none) →
      retryLoop op attempt rem last = (none, attempt + k + 1) := by
  intro rem
  induction rem with
  | zero => intro attempt last k hk _ _; exact absurd hk (Nat.not_lt_zero k)
  | succ m ih =>
      intro attempt last k hk hsucc hprev
      cases k with
      | zero =>
          rw [Nat.add_zero] at hsucc
          rw [retryLoop, hsucc]
      | succ k2 =>
          have h0 : op attempt ≠ none := by
            have := hprev 0 (Nat.succ_pos k2)
            rw [Nat.add_zero] at this
            exact this
          cases he : op attempt with
          | none => exact absurd he h0
          | some e =>
              rw [retryLoop, he]
              show retryLoop op (attempt + 1) m (some e) = (none, attempt + (k2 + 1) + 1)
              have hrec : retryLoop op (attempt + 1) m (some e) = (none, attempt + 1 + k2 + 1) := by
                refine ih (attempt + 1) (some e) k2 (by omega) ?_ ?_
                · have harr : attempt + 1 + k2 = attempt + (k2 + 1) := by omega
                  rw [harr]
                  exact hsucc
                · intro j hj
                  have harr : attempt + 1 + j = attempt + (j + 1) := by omega
                  rw [harr]
                  exact hprev (j + 1) (by omega)
              rw [hrec]
              have harr : attempt + 1 + k2 + 1 = attempt + (k2 + 1) + 1 := by omega
              rw [harr]

/-- The join of task results is nil exactly when every task returned nil. -/
lemma firstError_eq_none_iff :
    ∀ ts : List (Option String), firstError ts = none ↔ ∀ t ∈ ts, t = none := by
  intro ts
  induction ts with
  | nil => simp [firstError]
  | cons t rest ih =>
      cases t with
      | none => simp [firstError, ih]
      | some e => simp [firstError]

/-- The process exits 1 exactly when some task returned a non-nil error. -/
lemma exitCode_eq_one_iff (ts : List (Option String)) :
    exitCode ts = 1 ↔ ∃ t ∈ ts, t ≠ none := by
  unfold exitCode
  by_cases h : firstError ts = none
  · rw [if_pos h]
    constructor
    · intro h01; exact absurd h01 (by decide)
    · rintro ⟨t, ht, hne⟩
      exact absurd ((firstError_eq_none_iff ts).mp h t ht) hne
  · rw [if_neg h]
    constructor
    · intro _
      by_contra hno
      push_neg at hno
      exact h ((firstError_eq_none_iff ts).mpr hno)
    · intro _; rfl

/-! ## Claim theorems -/

/-- C1, counterexample: the claim says Allocate returns one container
allocation response per requested container group; for a request naming
two container groups, the code returns a response holding exactly one
container response, so the count does not match the request. -/
theorem c1_counterexample :
    (Allocate { containerRequests := [{ devicesIDs := ["tun0"] }, { devicesIDs := ["tun1"] }] }
      ).response.containerResponses.length = 1 ∧
    ({ containerRequests := [{ devicesIDs := ["tun0"] }, { devicesIDs := ["tun1"] }] }
      : AllocateRequest).containerRequests.length = 2 ∧
    ¬ ((Allocate { containerRequests := [{ devicesIDs := ["tun0"] }, { devicesIDs := ["tun1"] }] }
        ).response.containerResponses.length =
      ({ containerRequests := [{ devicesIDs := ["tun0"] }, { devicesIDs := ["tun1"] }] }
        : AllocateRequest).containerRequests.length) := by
  refine ⟨rfl, rfl, ?_⟩
  decide

/-- C1, amended: every Allocate call succeeds (nil error) and returns a
response holding exactly one container allocation response — regardless
of which device IDs or how many container groups were requested — granting
the fixed device descriptor with containerPath and hostPath /dev/net/tun
and permissions rw. -/
theorem c1_allocate_fixed :
    ∀ req : AllocateRequest,
      (Allocate req).err = none ∧
      (Allocate req).response.containerResponses =
        [{ devices := [{ containerPath := "/dev/net/tun", hostPath := "/dev/net/tun",
                         permissions := "rw" }] }] ∧
      (Allocate req).signalsEmitted = 1 :=
  fun _ => ⟨rfl, rfl, rfl⟩

/-- C2: for every configured device count N, if the host path exists at
construction, discovery yields exactly the roster of N devices with IDs
tun0 .. tun(N-1) in order, all Healthy; if the path is absent the roster
is empty; in both cases server construction completes and returns a
server with the given configuration. -/
theorem c2_discover :
    ∀ (ns : String) (n : Nat),
      (Server.new ns n true).devs =
        (List.range n).map (fun i => { id := "tun" ++ toString i, health := Health.Healthy }) ∧
      (Server.new ns n true).devs.length = n ∧
      Server.new ns n false = { nspace := ns, devices := n, devs := [] } ∧
      Server.new ns n true = { nspace := ns, devices := n, devs := discover true n } := by
  intro ns n
  refine ⟨?_, ?_, rfl, rfl⟩
  · show discover true n = _
    rw [discover, if_pos rfl, discoverLoop_eq_map]
    rfl
  · show (discover true n).length = n
    rw [discover, if_pos rfl, discoverLoop_eq_map]
    simp

/-- C3: the effective backoff delay for attempt k (0-indexed) equals
min(baseDelay * 2^k, maxDelay) for every attempt the policy can make; the
concrete sequence for attempts 0..4 is 100ms, 200ms, 400ms, 800ms,
1600ms (in nanoseconds), a hypothetical 6th attempt computes 3200ms, and
any attempt whose computed delay is at least 5s sleeps exactly 5s. -/
theorem c3_backoff :
    (∀ k, k ≤ 5 → backoffDelayNs k = min (baseDelayNs * 2 ^ k) maxDelayNs) ∧
    [backoffDelayNs 0, backoffDelayNs 1, backoffDelayNs 2, backoffDelayNs 3, backoffDelayNs 4] =
      [100000000, 200000000, 400000000, 800000000, 1600000000] ∧
    backoffDelayNs 5 = 3200000000 ∧
    (∀ k, computedBackoffNs k ≥ maxDelayNs → backoffDelayNs k = maxDelayNs) := by
  refine ⟨by decide, by decide, by decide, ?_⟩
  intro k hk
  unfold backoffDelayNs
  by_cases h : computedBackoffNs k > maxDelayNs
  · rw [if_pos h]
  · rw [if_neg h]
    omega

/-- C3, witness: the bounded clauses of the backoff theorem evaluated at
the concrete attempts 3 and 7. -/
theorem c3_backoff_witness :
    backoffDelayNs 3 = min (baseDelayNs * 2 ^ 3) maxDelayNs ∧
    (computedBackoffNs 7 ≥ maxDelayNs ∧ backoffDelayNs 7 = maxDelayNs) :=
  ⟨c3_backoff.1 3 (by decide), by decide, c3_backoff.2.2.2 7 (by decide)⟩

/-- C4, counterexample: the claim says registration fails fatally exactly
after exhausting 5 consecutive failures in a handshake phase and never
before; with every retried operation succeeding on its first attempt (so
no phase ever records a single failure) and the unretried kubelet
Register RPC failing once, registration still fails fatally. -/
theorem c4_counterexample :
    (RegisterDevicePlugin (fun _ => none) (fun _ => none) (fun _ => none)
        (some "rpc error")).result =
      some "registration failed: failed to register plugin with kubelet service: rpc error" ∧
    retry (fun _ => none) = (none, 1) := by
  exact ⟨rfl, rfl⟩

/-- C4, amended: the retry loop returns success as soon as any attempt
succeeds (after exactly that many calls), surfaces an error iff all 5
attempts fail, and in that case has consumed all 5 attempts; the retried
handshake steps therefore fail only after 5 consecutive failures, but the
final kubelet Register RPC is not retried, so a single failure of it
makes registration fail fatally even when every retried step succeeded. -/
theorem c4_retry_policy :
    (∀ (op : Nat → Option String) (k : Nat), k < maxRetries → op k = none →
        (∀ j, j < k → op j ≠ none) → retry op = (none, k + 1)) ∧
    (∀ op : Nat → Option String, (retry op).fst ≠ none ↔ ∀ k, k < maxRetries → op k ≠ none) ∧
    (∀ op : Nat → Option String, (retry op).fst ≠ none → (retry op).snd = maxRetries) ∧
    (∀ (cl h ck : Nat → Option String) (e : String),
        (retry cl).fst = none → (retry h).fst = none → (retry ck).fst = none →
        (RegisterDevicePlugin cl h ck (some e)).result ≠ none) := by
  refine ⟨?_, ?_, ?_, ?_⟩
  · intro op k hk hks hprev
    have := retryLoop_first_success op maxRetries 0 none k hk
      (by rw [Nat.zero_add]; exact hks)
      (by intro j hj; rw [Nat.zero_add]; exact hprev j hj)
    rw [retry, this, Nat.zero_add]
  · intro op
    have := retryLoop_fst_ne_none_iff op maxRetries 0 none
    simpa [retry] using this
  · intro op h
    have := retryLoop_snd_of_fail op maxRetries 0 none h
    simpa [retry] using this
  · intro cl h ck e hcl hh hck
    simp [RegisterDevicePlugin, waitForPluginReady, registerWithKubelet, hcl, hh, hck]

/-- C4, witness: the retry-policy theorem applied at concrete inputs: an
operation succeeding first at attempt 2 makes retry return success after
3 calls, and a single Register failure with all retried steps succeeding
makes registration fail. -/
theorem c4_retry_policy_witness :
    retry (fun k => if k < 2 then some "transient" else none) = (none, 2 + 1) ∧
    (RegisterDevicePlugin (fun _ => none) (fun _ => none) (fun _ => none)
        (some "boom")).result ≠ none :=
  ⟨c4_retry_policy.1 (fun k => if k < 2 then some "transient" else none) 2
      (by decide) (by decide) (by decide),
   c4_retry_policy.2.2.2 (fun _ => none) (fun _ => none) (fun _ => none) "boom"
      (by decide) (by decide) (by decide)⟩

/-- C5: RegisterDevicePlugin attempts the kubelet registration only after
the readiness wait succeeded; if the readiness wait fails, registration is
never attempted and the (wrapped) readiness error is returned. -/
theorem c5_readiness_first :
    ∀ (cl h ck : Nat → Option String) (reg : Option String) (e : String),
      waitForPluginReady cl h = some e →
      RegisterDevicePlugin cl h ck reg =
        { result := some ("plugin not ready: " ++ e), registrationAttempted := false } := by
  intro cl h ck reg e hw
  unfold RegisterDevicePlugin
  rw [hw]

/-- C5, witness: with a local connection that always fails, the readiness
wait fails after exhausting its attempts and registration is never
attempted. -/
theorem c5_readiness_first_witness :
    waitForPluginReady (fun _ => some "dial error") (fun _ => none) =
      some ("failed to create connection to local gRPC server: "
        ++ "failed to create connection to local gRPC server after 5 attempts: dial error") ∧
    RegisterDevicePlugin (fun _ => some "dial error") (fun _ => none) (fun _ => none) none =
      { result := some ("plugin not ready: "
          ++ ("failed to create connection to local gRPC server: "
            ++ "failed to create connection to local gRPC server after 5 attempts: dial error")),
        registrationAttempted := false } :=
  ⟨rfl, c5_readiness_first (fun _ => some "dial error") (fun _ => none) (fun _ => none) none
      ("failed to create connection to local gRPC server: "
        ++ "failed to create connection to local gRPC server after 5 attempts: dial error") rfl⟩

/-- C6, counterexample: the claim says a recovered panic is converted into
a failed RPC response; the configured recovery handler returns a nil
error, so the RPC error produced at the recovery boundary for a panicking
handler is none, not an error, while the panic counter is incremented. -/
theorem c6_counterexample :
    interceptedCall 0 (HandlerOutcome.panicRaised "boom") =
      { panicCounter := 1, resp := none, err := none } ∧
    ¬ (interceptedCall 0 (HandlerOutcome.panicRaised "boom")).err.isSome := by
  exact ⟨rfl, by decide⟩

/-- C6, amended: a panic raised while serving a single RPC is recovered at
the handler boundary (the call yields a result rather than crashing the
process) and the panic counter is incremented exactly once per recovered
panic; however the recovery handler returns a nil error, so the recovery
layer does not itself convert the panic into a failed RPC response. -/
theorem c6_panic_recovery :
    ∀ (c : Nat) (p : String),
      interceptedCall c (HandlerOutcome.panicRaised p) =
        { panicCounter := c + 1, resp := none, err := none } :=
  fun _ _ => rfl

/-- C7: on every watch stream, the first attempted message is the current
roster snapshot, sent before any signal-triggered resend, and each of the
n signal-triggered resends emits the identical snapshot. -/
theorem c7_snapshot_first :
    ∀ (devs : List Device) (sendOk : Nat → Bool) (n : Nat),
      (ListAndWatch devs sendOk n).sent.map Prod.fst =
        { devices := devs } :: List.replicate n { devices := devs } ∧
      ((ListAndWatch devs sendOk n).sent.map Prod.fst).head? =
        some { devices := devs } := by
  intro devs sendOk n
  have h : (ListAndWatch devs sendOk n).sent.map Prod.fst =
      { devices := devs } :: List.replicate n { devices := devs } := by
    rw [ListAndWatch, lawLoop_sent_map]
    rfl
  exact ⟨h, by rw [h]; rfl⟩

/-- C8: a server whose graceful stop completes within the grace deadline
returns that stop result without forcing; past the deadline the server is
forced closed, and forced closure with a clean close contributes no error,
so error-free stops give exit code 0 whether or not forcing occurred; the
process exits 1 exactly when some task returned a genuine error. -/
theorem c8_shutdown :
    (∀ r c : Option String, httpShutdownTask true r c = (r, false)) ∧
    grpcShutdownTask true = (none, false) ∧
    grpcShutdownTask false = (none, true) ∧
    (∀ r : Option String, httpShutdownTask false r none = (none, true)) ∧
    (∀ gw hw : Bool, exitCode [shutdownResult gw hw none none] = 0) ∧
    (∀ ts : List (Option String), exitCode ts = 1 ↔ ∃ t ∈ ts, t ≠ none) := by
  refine ⟨fun r c => rfl, rfl, rfl, fun r => rfl, ?_, exitCode_eq_one_iff⟩
  intro gw hw
  cases gw <;> cases hw <;> rfl

/-- C9: exhaustion of the update channel is an unreachable and fatal
condition: for every run in which the channel closes after any number of
signals, ListAndWatch ends in the panic sentinel, never in a normal
return (neither clean end nor error result). -/
theorem c9_channel_close_panics :
    ∀ (devs : List Device) (sendOk : Nat → Bool) (n : Nat),
      (ListAndWatch devs sendOk n).outcome = LawOutcome.panicked "unexpected error" := by
  intro devs sendOk n
  rw [ListAndWatch]
  exact lawLoop_outcome devs sendOk n 1 _

/-- C10: a Send failure never terminates ListAndWatch: for every pattern of
send failures, a send is still attempted for the initial snapshot and for
every one of the n signals, and both the attempted messages and the final
outcome are identical to those of a run in which every send succeeds. -/
theorem c10_send_errors_only_logged :
    ∀ (devs : List Device) (sendOk : Nat → Bool) (n : Nat),
      (ListAndWatch devs sendOk n).sent.length = n + 1 ∧
      (ListAndWatch devs sendOk n).sent.map Prod.fst =
        (ListAndWatch devs (fun _ => true) n).sent.map Prod.fst ∧
      (ListAndWatch devs sendOk n).outcome = (ListAndWatch devs (fun _ => true) n).outcome := by
  intro devs sendOk n
  refine ⟨?_, ?_, ?_⟩
  · rw [ListAndWatch, lawLoop_sent_length]
    simp
    omega
  · rw [ListAndWatch, ListAndWatch, lawLoop_sent_map, lawLoop_sent_map]
    rfl
  · rw [ListAndWatch, ListAndWatch, lawLoop_outcome, lawLoop_outcome]

end TunManager
